import Mathlib

/-!
Shallow embedding of the core logic of the badminton doubles tactic board
(defense-radius interpolation, vulnerability heatmap with furthest-point
extraction, rule-based auto-rotation target solver, eased motion
interpolation), together with proofs about it.

Coordinates, radii and the solver/interpolator are embedded over `ℚ`
(JavaScript numbers are idealized as exact rationals there, since those
code paths use only field operations, `abs`, `min`, `max` and `sign`).
The heatmap evaluator takes Euclidean square roots, so it is embedded
over `ℝ`, and the running minima/maxima that the source initializes with
`Infinity` are embedded in `EReal` with `⊤` playing the role of
JavaScript `Infinity`.
-/

namespace Badminton

/-- Court width constant, `COURT_WIDTH = 610`. -/
def COURT_WIDTH : ℚ := 610

/-- Court height constant, `COURT_HEIGHT = 1340`. -/
def COURT_HEIGHT : ℚ := 1340

/-- Visual player radius constant, `PLAYER_RADIUS = 15`. -/
def PLAYER_RADIUS : ℚ := 15

/-- Defense radius at the net, `DEFENSE_RADIUS_NET = 120`. -/
def DEFENSE_RADIUS_NET : ℚ := 120

/-- Defense radius at the back line, `DEFENSE_RADIUS_BACK = 240`. -/
def DEFENSE_RADIUS_BACK : ℚ := 240

/-- The defense-radius interpolation `calculateDefenseRadius(y)`:
symmetric linear interpolation based on distance from the net (y = 670). -/
def calculateDefenseRadius (y : ℚ) : ℚ :=
  let NET_Y : ℚ := 670
  let distFromNet := |y - NET_Y|
  let maxDist : ℚ := 670
  let t := distFromNet / maxDist
  DEFENSE_RADIUS_NET + t * (DEFENSE_RADIUS_BACK - DEFENSE_RADIUS_NET)

/-- JavaScript `Math.sign` on rationals. -/
def mathSign (x : ℚ) : ℚ :=
  if 0 < x then 1 else if x < 0 then -1 else 0

/-- JavaScript numeric `a || b`: yields `b` when `a` is `0` (falsy), else `a`;
rational version. -/
def jsOrQ (a b : ℚ) : ℚ :=
  if a = 0 then b else a

/-- The auto-rotation target solver `calculateOptimalPosition(movingPlayer, _teammate)`
(the teammate argument is unused in the source).  Takes the moving player's
coordinates, classifies them into ATTACK / NET_PLAY / DEFENSE, produces the
teammate target and applies the concluding safety clamp. -/
def calculateOptimalPosition (mpx mpy : ℚ) : ℚ × ℚ :=
  let centerX := COURT_WIDTH / 2
  let NET_Y : ℚ := 670
  let BACK_LINE_Y : ℚ := 1340
  let CENTER_Y := (NET_Y + BACK_LINE_Y) / 2
  let ATTACK_THRESHOLD : ℚ := 1200
  let NET_THRESHOLD : ℚ := 900
  let tgt : ℚ × ℚ :=
    if ATTACK_THRESHOLD < mpy then
      -- STATE: ATTACK
      let targetY : ℚ := 920
      let dx := mpx - centerX
      let attackBias : ℚ := 0.2
      let targetX := centerX + (dx * attackBias)
      (targetX, targetY)
    else if mpy < NET_THRESHOLD then
      -- STATE: NET PLAY
      let yDistFromCenter := CENTER_Y - mpy
      let netPivotFactor : ℚ := 0.25
      let targetY := min (CENTER_Y + (yDistFromCenter * netPivotFactor)) 1300
      let dx := mpx - centerX
      let coverageFactor : ℚ := 0.2
      let targetX := centerX - (dx * coverageFactor)
      (targetX, targetY)
    else
      -- STATE: DEFENSE
      let yDiff := mpy - CENTER_Y
      let targetY := CENTER_Y - (yDiff * 0.5)
      let dx := mpx - centerX
      let baseDefenseWidth : ℚ := 260
      let compressionFactor : ℚ := 0.8
      let targetOffset := max 20 (baseDefenseWidth - (|dx| * compressionFactor))
      let targetX := centerX - (mathSign (jsOrQ dx 1) * targetOffset)
      (targetX, targetY)
  -- Clamping & Safety
  let currentRadius := calculateDefenseRadius tgt.2
  let edgeMargin := max PLAYER_RADIUS (currentRadius * 0.5)
  let tx := max edgeMargin (min tgt.1 (COURT_WIDTH - edgeMargin))
  let ty := max (NET_Y + edgeMargin) (min tgt.2 (COURT_HEIGHT - edgeMargin))
  (tx, ty)

/-- Animation progress `Math.min(elapsed / duration, 1)` from `animatePlayerMove`. -/
def animProgress (duration elapsed : ℚ) : ℚ :=
  min (elapsed / duration) 1

/-- Ease-out-quadratic factor `1 - Math.pow(1 - progress, 2)` from `animatePlayerMove`. -/
def easeProgress (progress : ℚ) : ℚ :=
  1 - (1 - progress) ^ 2

/-- One coordinate of the interpolated position
`start + (target - start) * easeProgress` from `animatePlayerMove`. -/
def animPosition (start target duration elapsed : ℚ) : ℚ :=
  start + (target - start) * easeProgress (animProgress duration elapsed)

/-- Both coordinates of the interpolated position, as mutated each frame by
`animatePlayerMove`'s `animate` callback. -/
def animPoint (sx sy tx ty duration elapsed : ℚ) : ℚ × ℚ :=
  (animPosition sx tx duration elapsed, animPosition sy ty duration elapsed)

/-- The drag handler's x clamp: `newX = Math.max(r, Math.min(newX, COURT_WIDTH - r))`. -/
def dragClampX (x : ℚ) : ℚ :=
  max PLAYER_RADIUS (min x (COURT_WIDTH - PLAYER_RADIUS))

/-- The drag handler's team-specific y clamp: Team A is restricted to the
lower half `[NET_Y + r, COURT_HEIGHT - r]`, Team B to `[r, NET_Y - r]`. -/
def dragClampY (isTeamA : Bool) (y : ℚ) : ℚ :=
  let NET_Y : ℚ := 670
  if isTeamA then max (NET_Y + PLAYER_RADIUS) (min y (COURT_HEIGHT - PLAYER_RADIUS))
  else max PLAYER_RADIUS (min y (NET_Y - PLAYER_RADIUS))

/-! Heatmap / furthest-point engine (`updateHeatmap`), embedded over `ℝ`
with `EReal`'s `⊤` standing for JavaScript `Infinity`. -/

/-- A player as seen by the heatmap evaluator: position plus the stored
`defenseRadius` field (id, label and color are irrelevant to the analysis). -/
structure HPlayer where
  x : ℝ
  y : ℝ
  defenseRadius : ℝ

/-- JavaScript numeric `a || b` on reals: yields `b` when `a` is `0` (falsy),
else `a`.  Used for the source's `p.defenseRadius || 1` divide-by-zero guard. -/
noncomputable def jsOr (a b : ℝ) : ℝ :=
  if a = 0 then b else a

/-- The inner per-cell loop of `updateHeatmap`: starting from
`minRatio = Infinity, minDist = Infinity`, for each player compute the
distance, the guarded radius and the vulnerability quotient, and keep the
running minima.  Returns the pair (minRatio, minDist). -/
noncomputable def evalPoint (team : List HPlayer) (qx qy : ℝ) : EReal × EReal :=
  team.foldl (fun acc p =>
    let dx := qx - p.x
    let dy := qy - p.y
    let dist := Real.sqrt (dx * dx + dy * dy)
    let radius := jsOr p.defenseRadius 1
    let vuln := dist / radius
    (if ((vuln : ℝ) : EReal) < acc.1 then ((vuln : ℝ) : EReal) else acc.1,
     if ((dist : ℝ) : EReal) < acc.2 then ((dist : ℝ) : EReal) else acc.2))
    (⊤, ⊤)

/-- The clamped heatmap opacity computed by `updateHeatmap` when
`minRatio > 0.5`: `Math.min(Math.max(((minRatio - 0.5) / 2.0) * 0.5, 0), 0.5)`. -/
noncomputable def cellAlpha (m : EReal) : EReal :=
  min (max ((m - ((0.5 : ℝ) : EReal)) / ((2 : ℝ) : EReal) * ((0.5 : ℝ) : EReal)) 0)
    ((0.5 : ℝ) : EReal)

/-- The opacity a cell is rendered with: `0` below the `minRatio > 0.5`
threshold, the clamped gradient value above it. -/
noncomputable def renderedAlpha (m : EReal) : EReal :=
  if ((0.5 : ℝ) : EReal) < m then cellAlpha m else 0

/-- A cell is actually drawn when `minRatio > 0.5` and the clamped alpha
exceeds the `0.05` rendering cutoff. -/
def cellDrawn (m : EReal) : Prop :=
  ((0.5 : ℝ) : EReal) < m ∧ ((0.05 : ℝ) : EReal) < cellAlpha m

/-- The grid sampled by `updateHeatmap`: y from 670 to 1340 (outer loop) and
x from 0 to 610 (inner loop), both in steps of 10, bounds included, in scan
order. -/
def gridPoints : List (ℕ × ℕ) :=
  (List.range 68).flatMap fun j => (List.range 62).map fun i => (10 * i, 670 + 10 * j)

/-- Running state of the furthest-point scan: the source's `maxDist` and
`maxPoint` variables. -/
structure ScanState where
  maxDist : EReal
  maxPoint : ℕ × ℕ

/-- One step of the furthest-point scan: `if (minDist > maxDist) { maxDist =
minDist; maxPoint = { x, y } }`. -/
noncomputable def scanStep (team : List HPlayer) (st : ScanState) (q : ℕ × ℕ) : ScanState :=
  let minDist := (evalPoint team (q.1 : ℝ) (q.2 : ℝ)).2
  if st.maxDist < minDist then ⟨minDist, q⟩ else st

/-- The whole furthest-point scan over the grid, starting from
`maxDist = 0, maxPoint = { x: 0, y: 0 }`. -/
noncomputable def furthestScan (team : List HPlayer) : ScanState :=
  gridPoints.foldl (scanStep team) ⟨0, (0, 0)⟩

/-- The furthest-point marker: produced only when `maxDist > 0`, at the
winning grid point clamped into `[r, COURT_WIDTH - r] × [670 + r,
COURT_HEIGHT - r]` with `r = 30`. -/
noncomputable def markerOf (team : List HPlayer) : Option (ℕ × ℕ) :=
  let st := furthestScan team
  if 0 < st.maxDist then
    some (max 30 (min st.maxPoint.1 (610 - 30)), max (670 + 30) (min st.maxPoint.2 (1340 - 30)))
  else none

/-! Helper lemmas. -/

lemma animProgress_le_one (d e : ℚ) : animProgress d e ≤ 1 := min_le_right _ _

lemma animProgress_nonneg {d e : ℚ} (hd : 0 < d) (he : 0 ≤ e) : 0 ≤ animProgress d e :=
  le_min (div_nonneg he hd.le) (by norm_num)

lemma animProgress_mono {d e1 e2 : ℚ} (hd : 0 < d) (h : e1 ≤ e2) :
    animProgress d e1 ≤ animProgress d e2 :=
  min_le_min (by gcongr) le_rfl

lemma easeProgress_mono {a b : ℚ} (hab : a ≤ b) (hb : b ≤ 1) :
    easeProgress a ≤ easeProgress b := by
  simp only [easeProgress]
  have h1 : (0:ℚ) ≤ 1 - b := by linarith
  have h2 : (1 - b) ≤ 1 - a := by linarith
  have := pow_le_pow_left₀ h1 h2 2
  linarith

lemma easeProgress_bounds {p : ℚ} (h0 : 0 ≤ p) (h1 : p ≤ 1) :
    0 ≤ easeProgress p ∧ easeProgress p ≤ 1 := by
  simp only [easeProgress]
  constructor <;> nlinarith [sq_nonneg (1 - p)]

lemma convex_lb {lo s t f : ℚ} (hf0 : 0 ≤ f) (hf1 : f ≤ 1) (hs : lo ≤ s) (ht : lo ≤ t) :
    lo ≤ s + (t - s) * f := by
  nlinarith [mul_nonneg (sub_nonneg.2 ht) hf0, mul_nonneg (sub_nonneg.2 hs) (sub_nonneg.2 hf1)]

lemma convex_ub {hi s t f : ℚ} (hf0 : 0 ≤ f) (hf1 : f ≤ 1) (hs : s ≤ hi) (ht : t ≤ hi) :
    s + (t - s) * f ≤ hi := by
  nlinarith [mul_nonneg (sub_nonneg.2 ht) hf0, mul_nonneg (sub_nonneg.2 hs) (sub_nonneg.2 hf1)]

lemma ecoe_min (a b : ℝ) : ((min a b : ℝ) : EReal) = min (a : EReal) (b : EReal) := by
  rcases le_total a b with h | h
  · rw [min_eq_left h, min_eq_left (EReal.coe_le_coe_iff.2 h)]
  · rw [min_eq_right h, min_eq_right (EReal.coe_le_coe_iff.2 h)]

lemma ecoe_max (a b : ℝ) : ((max a b : ℝ) : EReal) = max (a : EReal) (b : EReal) := by
  rcases le_total a b with h | h
  · rw [max_eq_right h, max_eq_right (EReal.coe_le_coe_iff.2 h)]
  · rw [max_eq_left h, max_eq_left (EReal.coe_le_coe_iff.2 h)]

lemma cellAlpha_coe (a : ℝ) :
    cellAlpha (a : EReal) = ((min (max ((a - 0.5) / 2 * 0.5) 0) 0.5 : ℝ) : EReal) := by
  simp only [cellAlpha]
  rw [show ((a : EReal) - ((0.5:ℝ) : EReal)) = ((a - 0.5 : ℝ) : EReal) from rfl,
    show (((a - 0.5 : ℝ) : EReal) / ((2:ℝ) : EReal)) = (((a - 0.5) / 2 : ℝ) : EReal) from rfl,
    show ((((a - 0.5) / 2 : ℝ) : EReal) * ((0.5:ℝ) : EReal)) = (((a - 0.5) / 2 * 0.5 : ℝ) : EReal) from
      (EReal.coe_mul _ _).symm,
    show (0 : EReal) = ((0:ℝ) : EReal) from rfl,
    ← ecoe_max, ← ecoe_min]

lemma cellAlpha_top : cellAlpha (⊤ : EReal) = ((0.5:ℝ) : EReal) := by
  simp only [cellAlpha]
  rw [EReal.top_sub_coe,
    EReal.top_div_of_pos_ne_top (by exact_mod_cast (by norm_num : (0:ℝ) < 2)) (EReal.coe_ne_top 2),
    EReal.top_mul_coe_of_pos (by norm_num), max_eq_left le_top, min_eq_right le_top]

lemma evalPoint_nil (qx qy : ℝ) : evalPoint [] qx qy = (⊤, ⊤) := rfl

lemma evalPoint_singleton (p : HPlayer) (qx qy : ℝ) :
    evalPoint [p] qx qy =
      (((Real.sqrt ((qx - p.x) * (qx - p.x) + (qy - p.y) * (qy - p.y)) /
          jsOr p.defenseRadius 1 : ℝ) : EReal),
       ((Real.sqrt ((qx - p.x) * (qx - p.x) + (qy - p.y) * (qy - p.y)) : ℝ) : EReal)) := by
  simp [evalPoint, EReal.coe_lt_top]

lemma scanStep_nil (st : ScanState) (q : ℕ × ℕ) :
    scanStep [] st q = if st.maxDist < ⊤ then ⟨⊤, q⟩ else st := rfl

lemma scan_nil_absorb (l : List (ℕ × ℕ)) (p : ℕ × ℕ) :
    l.foldl (scanStep []) ⟨⊤, p⟩ = ⟨⊤, p⟩ := by
  induction l with
  | nil => rfl
  | cons q t ih =>
    rw [List.foldl_cons, scanStep_nil, if_neg (lt_irrefl _)]
    exact ih

lemma gridPoints_ne_nil : gridPoints ≠ [] := by decide

lemma gridPoints_head : gridPoints.head gridPoints_ne_nil = (0, 670) := by decide

lemma furthestScan_nil : furthestScan [] = ⟨⊤, (0, 670)⟩ := by
  have h := List.head_cons_tail gridPoints gridPoints_ne_nil
  rw [furthestScan, ← h, gridPoints_head, List.foldl_cons, scanStep_nil,
    if_pos EReal.zero_lt_top]
  exact scan_nil_absorb _ _

lemma markerOf_nil : markerOf [] = some (30, 700) := by
  rw [markerOf, furthestScan_nil]
  norm_num

lemma cellDrawn_top : cellDrawn (⊤ : EReal) :=
  ⟨EReal.coe_lt_top 0.5, by rw [cellAlpha_top]; exact EReal.coe_lt_coe_iff.2 (by norm_num)⟩

/-! Claim theorems. -/

/-- C1, counterexample: with an empty team set the claim "no heatmap cells are
drawn and no furthest-point marker is produced" is false.  The cell at
(0, 670) satisfies the drawing condition (its minRatio is `⊤`, so
`minRatio > 0.5` holds and the clamped alpha is `0.5 > 0.05`), and the
furthest-point marker is produced at the clamped first grid point (30, 700),
because `minDist = Infinity` makes `maxDist = Infinity > 0`. -/
theorem empty_team_cell_drawn_and_marker :
    cellDrawn (evalPoint [] 0 670).1 ∧ markerOf [] = some (30, 700) :=
  ⟨cellDrawn_top, markerOf_nil⟩

/-- C1 (amended): with an empty team set, every cell's minRatio and
minDistance default to infinity (`⊤`); consequently every sampled cell IS
drawn, with clamped alpha exactly 0.5, and a furthest-point marker IS
produced, at the clamped first grid point (30, 700) of the scan. -/
theorem empty_team_heatmap_behavior :
    (∀ qx qy : ℝ, evalPoint [] qx qy = (⊤, ⊤)) ∧
    (∀ qx qy : ℝ, cellDrawn (evalPoint [] qx qy).1 ∧
      cellAlpha (evalPoint [] qx qy).1 = ((0.5:ℝ) : EReal)) ∧
    markerOf [] = some (30, 700) :=
  ⟨fun _ _ => rfl, fun _ _ => ⟨cellDrawn_top, cellAlpha_top⟩, markerOf_nil⟩

/-- C2, counterexample: for the mover exactly at (centerX, 1005) the solver
does NOT return a teammate target with x = centerX − 260 = 45; the
concluding safety clamp moves it. -/
theorem defense_center_target_ne_offset260 :
    (calculateOptimalPosition 305 1005).1 ≠ 305 - 260 := by
  norm_num [calculateOptimalPosition, calculateDefenseRadius, mathSign, jsOrQ,
    COURT_WIDTH, COURT_HEIGHT, PLAYER_RADIUS, DEFENSE_RADIUS_NET, DEFENSE_RADIUS_BACK]

/-- C2 (amended): for the mover exactly at (centerX, 1005) (DEFENSE branch,
centerY) the pre-clamp teammate target x is centerX − 260 = 45 (targetOffset
260, default +1 sign), but the concluding safety clamp with edge margin
max(15, radius(1005) · 0.5) = 90 raises it, so the solver returns (90, 1005). -/
theorem defense_center_target_clamped_to_90 :
    calculateOptimalPosition 305 1005 = (90, 1005) := by
  norm_num [calculateOptimalPosition, calculateDefenseRadius, mathSign, jsOrQ,
    COURT_WIDTH, COURT_HEIGHT, PLAYER_RADIUS, DEFENSE_RADIUS_NET, DEFENSE_RADIUS_BACK]

/-- C3: the defense radius function has radius(670) = 120 and
radius(1340) = 240, and is monotone non-decreasing in the distance from the
net: whenever |y1 − 670| ≤ |y2 − 670|, radius(y1) ≤ radius(y2). -/
theorem defenseRadius_endpoints_and_monotone :
    calculateDefenseRadius 670 = 120 ∧ calculateDefenseRadius 1340 = 240 ∧
    ∀ y1 y2 : ℚ, |y1 - 670| ≤ |y2 - 670| →
      calculateDefenseRadius y1 ≤ calculateDefenseRadius y2 := by
  refine ⟨by norm_num [calculateDefenseRadius, DEFENSE_RADIUS_NET, DEFENSE_RADIUS_BACK],
    by norm_num [calculateDefenseRadius, DEFENSE_RADIUS_NET, DEFENSE_RADIUS_BACK],
    fun y1 y2 h => ?_⟩
  simp only [calculateDefenseRadius, DEFENSE_RADIUS_NET, DEFENSE_RADIUS_BACK]
  linarith

/-- C3, witness: the monotonicity instance at y1 = 700, y2 = 800. -/
theorem defenseRadius_endpoints_and_monotone_witness :
    |(700:ℚ) - 670| ≤ |(800:ℚ) - 670| ∧
    calculateDefenseRadius 700 ≤ calculateDefenseRadius 800 :=
  ⟨by norm_num, defenseRadius_endpoints_and_monotone.2.2 700 800 (by norm_num)⟩

/-- C4, counterexample: for a one-player team with defense radius 0.5 at
distance 5 from the query point (3, 4), the evaluator yields
minRatio = 5 / 0.5 = 10, not D / max(R, 1) = 5: the source guards the
division with `p.defenseRadius || 1`, which substitutes 1 only when the
radius is exactly 0, not for radii in (0, 1). -/
theorem one_player_max_formula_fails :
    (evalPoint [⟨0, 0, 0.5⟩] 3 4).1 ≠
      ((Real.sqrt (((3:ℝ) - 0) * (3 - 0) + (4 - 0) * (4 - 0)) / max 0.5 1 : ℝ) : EReal) := by
  have hs : Real.sqrt (((3:ℝ) - 0) * (3 - 0) + (4 - 0) * (4 - 0)) = 5 := by
    rw [show (((3:ℝ) - 0) * (3 - 0) + (4 - 0) * (4 - 0)) = 5 ^ 2 by norm_num]
    exact Real.sqrt_sq (by norm_num)
  intro h
  rw [evalPoint_singleton] at h
  dsimp only at h
  rw [EReal.coe_eq_coe_iff, hs] at h
  rw [show jsOr (0.5:ℝ) 1 = 0.5 from if_neg (by norm_num)] at h
  norm_num at h

/-- C4 (amended): for every query point and every one-player team where that
player has defense radius R at Euclidean distance D, the evaluator yields
minRatio = D / R′ where R′ = 1 when R = 0 and R′ = R otherwise (the
JavaScript `|| 1` fallback); this agrees with D / max(R, 1) exactly when
R = 0 or R ≥ 1. -/
theorem one_player_minimum_quotient (qx qy px py R : ℝ) :
    (evalPoint [⟨px, py, R⟩] qx qy).1 =
      ((Real.sqrt ((qx - px) * (qx - px) + (qy - py) * (qy - py)) /
        (if R = 0 then 1 else R) : ℝ) : EReal) := by
  rw [evalPoint_singleton]
  rfl

/-- C5: a sampled cell's rendering alpha is 0 when minRatio ≤ 0.5; for
minRatio > 0.5 it equals clamp(((minRatio − 0.5) / 2.0) × 0.5, 0, 0.5);
it strictly increases with minRatio on (0.5, 2.5), and equals 0.5 for every
minRatio ≥ 2.5. -/
theorem heatmap_alpha_profile :
    (∀ m : EReal, m ≤ ((0.5:ℝ) : EReal) → renderedAlpha m = 0) ∧
    (∀ m : EReal, ((0.5:ℝ) : EReal) < m →
      renderedAlpha m =
        min (max ((m - ((0.5:ℝ) : EReal)) / ((2:ℝ) : EReal) * ((0.5:ℝ) : EReal)) 0)
          ((0.5:ℝ) : EReal)) ∧
    (∀ m1 m2 : EReal, ((0.5:ℝ) : EReal) < m1 → m1 < m2 → m2 < ((2.5:ℝ) : EReal) →
      renderedAlpha m1 < renderedAlpha m2) ∧
    (∀ m : EReal, ((2.5:ℝ) : EReal) ≤ m → renderedAlpha m = ((0.5:ℝ) : EReal)) := by
  refine ⟨fun m h => ?_, fun m h => ?_, fun m1 m2 h1 h12 h25 => ?_, fun m h => ?_⟩
  · simp only [renderedAlpha]
    rw [if_neg (not_lt.2 h)]
  · simp only [renderedAlpha, cellAlpha]
    rw [if_pos h]
  · induction m1 using EReal.rec with
    | h_bot => exact absurd h1 (not_lt.2 bot_le)
    | h_top => exact absurd h12 not_top_lt
    | h_real a =>
      induction m2 using EReal.rec with
      | h_bot => exact absurd h12 (not_lt.2 bot_le)
      | h_top => exact absurd h25 not_top_lt
      | h_real b =>
        have ha : (0.5:ℝ) < a := EReal.coe_lt_coe_iff.1 h1
        have hab : a < b := EReal.coe_lt_coe_iff.1 h12
        have hb : b < 2.5 := EReal.coe_lt_coe_iff.1 h25
        simp only [renderedAlpha]
        rw [if_pos h1, if_pos (lt_trans h1 h12), cellAlpha_coe, cellAlpha_coe,
          EReal.coe_lt_coe_iff]
        rw [max_eq_left (by linarith), min_eq_left (by linarith),
          max_eq_left (by linarith), min_eq_left (by linarith)]
        linarith
  · induction m using EReal.rec with
    | h_bot => exact absurd (le_bot_iff.1 h) (EReal.coe_ne_bot 2.5)
    | h_top =>
      simp only [renderedAlpha]
      rw [if_pos (EReal.coe_lt_top 0.5), cellAlpha_top]
    | h_real a =>
      have ha : (2.5:ℝ) ≤ a := EReal.coe_le_coe_iff.1 h
      simp only [renderedAlpha]
      rw [if_pos (EReal.coe_lt_coe_iff.2 (by linarith)), cellAlpha_coe,
        max_eq_left (by linarith), min_eq_right (by linarith)]

/-- C5, witness: the saturation clause at minRatio = 3 gives alpha 0.5. -/
theorem heatmap_alpha_profile_witness :
    ((2.5:ℝ) : EReal) ≤ ((3:ℝ) : EReal) ∧
    renderedAlpha ((3:ℝ) : EReal) = ((0.5:ℝ) : EReal) :=
  ⟨EReal.coe_le_coe_iff.2 (by norm_num),
    heatmap_alpha_profile.2.2.2 _ (EReal.coe_le_coe_iff.2 (by norm_num))⟩

/-- C6: for every mover with y > 1200 (ATTACK) at a legal court position
(x ∈ [15, 595], y ≤ 1325), the solver returns the target
(centerX + (x − centerX) × 0.2, 920) unchanged by the concluding safety
clamp. -/
theorem attack_state_teammate_target (x y : ℚ) (hx1 : 15 ≤ x) (hx2 : x ≤ 595)
    (hy1 : 1200 < y) (hy2 : y ≤ 1325) :
    calculateOptimalPosition x y = (305 + (x - 305) * 0.2, 920) := by
  have hr : calculateDefenseRadius 920 = 11040 / 67 := by
    norm_num [calculateDefenseRadius, DEFENSE_RADIUS_NET, DEFENSE_RADIUS_BACK]
  simp only [calculateOptimalPosition, COURT_WIDTH, COURT_HEIGHT, PLAYER_RADIUS]
  rw [if_pos hy1]
  simp only [hr]
  have hE : max (15:ℚ) (11040 / 67 * 0.5) = 5520 / 67 := by norm_num
  rw [hE, Prod.mk.injEq]
  have h305 : (610:ℚ) / 2 = 305 := by norm_num
  rw [h305]
  constructor
  · rw [min_eq_left (by linarith), max_eq_right (by linarith)]
  · rw [min_eq_left (by norm_num), max_eq_right (by norm_num)]

/-- C6, witness: the ATTACK-state target for the mover at (400, 1250). -/
theorem attack_state_teammate_target_witness :
    (15:ℚ) ≤ 400 ∧ (400:ℚ) ≤ 595 ∧ (1200:ℚ) < 1250 ∧ (1250:ℚ) ≤ 1325 ∧
    calculateOptimalPosition 400 1250 = (324, 920) := by
  refine ⟨by norm_num, by norm_num, by norm_num, by norm_num, ?_⟩
  have h := attack_state_teammate_target 400 1250 (by norm_num) (by norm_num)
    (by norm_num) (by norm_num)
  rw [h]
  norm_num

/-- C7: whenever a furthest-point marker is produced, its drawn coordinates
lie within x ∈ [30, 610 − 30] and y ∈ [670 + 30, 1340 − 30], for every
configuration of player positions. -/
theorem marker_in_safe_region (team : List HPlayer) (m : ℕ × ℕ)
    (h : markerOf team = some m) :
    30 ≤ m.1 ∧ m.1 ≤ 580 ∧ 700 ≤ m.2 ∧ m.2 ≤ 1310 := by
  rw [markerOf] at h
  by_cases hc : 0 < (furthestScan team).maxDist
  · rw [if_pos hc] at h
    injection h with hm
    subst hm
    refine ⟨le_max_left _ _, max_le (by norm_num) (min_le_right _ _), ?_, ?_⟩
    · exact le_trans (by norm_num) (le_max_left _ _)
    · exact max_le (by norm_num) (min_le_right _ _)
  · rw [if_neg hc] at h
    exact absurd h (by simp)

/-- C7, witness: the marker produced for the empty team lies at (30, 700),
inside the safe region. -/
theorem marker_in_safe_region_witness :
    markerOf [] = some (30, 700) ∧
    (30 ≤ ((30:ℕ), (700:ℕ)).1 ∧ ((30:ℕ), (700:ℕ)).1 ≤ 580 ∧
      700 ≤ ((30:ℕ), (700:ℕ)).2 ∧ ((30:ℕ), (700:ℕ)).2 ≤ 1310) :=
  ⟨markerOf_nil, marker_in_safe_region [] (30, 700) markerOf_nil⟩

/-- C8: for any start, target and positive duration, the interpolated
position is the start at elapsed 0, equals the target exactly for every
elapsed ≥ duration, the eased factor 1 − (1 − p)² with
p = min(elapsed/duration, 1) lies in [0, 1] and is non-decreasing in
elapsed, and each coordinate moves monotonically toward the target with no
overshoot. -/
theorem animation_endpoint_and_monotone (s t d e e1 e2 : ℚ) (hd : 0 < d) (he : 0 ≤ e)
    (h1 : 0 ≤ e1) (h12 : e1 ≤ e2) :
    animPosition s t d 0 = s ∧
    (d ≤ e → animPosition s t d e = t) ∧
    (0 ≤ easeProgress (animProgress d e) ∧ easeProgress (animProgress d e) ≤ 1) ∧
    easeProgress (animProgress d e1) ≤ easeProgress (animProgress d e2) ∧
    |t - animPosition s t d e2| ≤ |t - animPosition s t d e1| ∧
    |animPosition s t d e - s| ≤ |t - s| := by
  have hb : ∀ x : ℚ, 0 ≤ x → 0 ≤ easeProgress (animProgress d x) ∧
      easeProgress (animProgress d x) ≤ 1 := fun x hx =>
    easeProgress_bounds (animProgress_nonneg hd hx) (animProgress_le_one d x)
  have hmono : easeProgress (animProgress d e1) ≤ easeProgress (animProgress d e2) :=
    easeProgress_mono (animProgress_mono hd h12) (animProgress_le_one d e2)
  refine ⟨?_, ?_, hb e he, hmono, ?_, ?_⟩
  · simp [animPosition, animProgress, easeProgress, zero_div]
  · intro hde
    have hp : animProgress d e = 1 := by
      simp only [animProgress]
      rw [min_eq_right ((one_le_div hd).2 hde)]
    simp [animPosition, hp, easeProgress]
  · have hb1 := hb e1 h1
    have hb2 := hb e2 (le_trans h1 h12)
    have key2 : t - animPosition s t d e2 = (t - s) * (1 - easeProgress (animProgress d e2)) := by
      simp only [animPosition]; ring
    have key1 : t - animPosition s t d e1 = (t - s) * (1 - easeProgress (animProgress d e1)) := by
      simp only [animPosition]; ring
    rw [key1, key2, abs_mul, abs_mul,
      abs_of_nonneg (by linarith [hb2.2] : (0:ℚ) ≤ 1 - easeProgress (animProgress d e2)),
      abs_of_nonneg (by linarith [hb1.2] : (0:ℚ) ≤ 1 - easeProgress (animProgress d e1))]
    exact mul_le_mul_of_nonneg_left (by linarith) (abs_nonneg _)
  · have hbe := hb e he
    have key : animPosition s t d e - s = (t - s) * easeProgress (animProgress d e) := by
      simp only [animPosition]; ring
    rw [key, abs_mul, abs_of_nonneg hbe.1]
    calc |t - s| * easeProgress (animProgress d e) ≤ |t - s| * 1 :=
          mul_le_mul_of_nonneg_left hbe.2 (abs_nonneg _)
      _ = |t - s| := mul_one _

/-- C8, witness: the interpolation from 100 to 200 over 300 ms, evaluated
with elapsed times 0 and 300. -/
theorem animation_endpoint_and_monotone_witness :
    (0:ℚ) < 300 ∧ (0:ℚ) ≤ 300 ∧ (0:ℚ) ≤ 0 ∧ (0:ℚ) ≤ 300 ∧
    (animPosition 100 200 300 0 = 100 ∧
     ((300:ℚ) ≤ 300 → animPosition 100 200 300 300 = 200) ∧
     (0 ≤ easeProgress (animProgress 300 300) ∧ easeProgress (animProgress 300 300) ≤ 1) ∧
     easeProgress (animProgress 300 0) ≤ easeProgress (animProgress 300 300) ∧
     |(200:ℚ) - animPosition 100 200 300 300| ≤ |(200:ℚ) - animPosition 100 200 300 0| ∧
     |animPosition 100 200 300 300 - 100| ≤ |(200:ℚ) - 100|) :=
  ⟨by norm_num, by norm_num, by norm_num, by norm_num,
    animation_endpoint_and_monotone 100 200 300 300 0 300
      (by norm_num) (by norm_num) (by norm_num) (by norm_num)⟩

/-- C9: for every y ∈ [0, 1340] the defense radius lies in [120, 240], and
for every y produced by the drag clamp the stored radius is nonzero, so the
evaluator's `|| 1` divide-by-zero fallback is never taken. -/
theorem defenseRadius_bounds_no_fallback :
    (∀ y : ℚ, 0 ≤ y → y ≤ 1340 →
      120 ≤ calculateDefenseRadius y ∧ calculateDefenseRadius y ≤ 240) ∧
    ∀ isTeamA : Bool, ∀ z : ℚ,
      jsOr ((calculateDefenseRadius (dragClampY isTeamA z) : ℚ) : ℝ) 1
        = ((calculateDefenseRadius (dragClampY isTeamA z) : ℚ) : ℝ) := by
  have hlb : ∀ y : ℚ, 120 ≤ calculateDefenseRadius y := by
    intro y
    simp only [calculateDefenseRadius, DEFENSE_RADIUS_NET, DEFENSE_RADIUS_BACK]
    have h0 : (0:ℚ) ≤ |y - 670| := abs_nonneg _
    linarith
  refine ⟨fun y h0 h1 => ⟨hlb y, ?_⟩, fun b z => ?_⟩
  · simp only [calculateDefenseRadius, DEFENSE_RADIUS_NET, DEFENSE_RADIUS_BACK]
    have habs : |y - 670| ≤ 670 := abs_le.2 ⟨by linarith, by linarith⟩
    linarith
  · have hpos : (0:ℚ) < calculateDefenseRadius (dragClampY b z) :=
      lt_of_lt_of_le (by norm_num) (hlb _)
    have hne : ((calculateDefenseRadius (dragClampY b z) : ℚ) : ℝ) ≠ 0 := by
      exact_mod_cast ne_of_gt hpos
    simp [jsOr, hne]

/-- C9, witness: the radius bounds at y = 1005. -/
theorem defenseRadius_bounds_no_fallback_witness :
    (0:ℚ) ≤ 1005 ∧ (1005:ℚ) ≤ 1340 ∧
    (120 ≤ calculateDefenseRadius 1005 ∧ calculateDefenseRadius 1005 ≤ 240) :=
  ⟨by norm_num, by norm_num,
    defenseRadius_bounds_no_fallback.1 1005 (by norm_num) (by norm_num)⟩

/-- C10: the eased factor lies in [0, 1], so every animation frame is a
convex combination of start and target; if both the start and the clamped
target lie in Team A's legal half (x ∈ [15, 595], y ∈ [685, 1325]), the
animated teammate stays inside that half at every frame. -/
theorem animated_teammate_stays_in_half (sx sy tx ty d e : ℚ) (hd : 0 < d) (he : 0 ≤ e)
    (hsx1 : 15 ≤ sx) (hsx2 : sx ≤ 595) (hsy1 : 685 ≤ sy) (hsy2 : sy ≤ 1325)
    (htx1 : 15 ≤ tx) (htx2 : tx ≤ 595) (hty1 : 685 ≤ ty) (hty2 : ty ≤ 1325) :
    (0 ≤ easeProgress (animProgress d e) ∧ easeProgress (animProgress d e) ≤ 1) ∧
    15 ≤ (animPoint sx sy tx ty d e).1 ∧ (animPoint sx sy tx ty d e).1 ≤ 595 ∧
    685 ≤ (animPoint sx sy tx ty d e).2 ∧ (animPoint sx sy tx ty d e).2 ≤ 1325 := by
  have hbe := easeProgress_bounds (animProgress_nonneg hd he) (animProgress_le_one d e)
  refine ⟨hbe, ?_, ?_, ?_, ?_⟩ <;>
    simp only [animPoint, animPosition]
  · exact convex_lb hbe.1 hbe.2 hsx1 htx1
  · exact convex_ub hbe.1 hbe.2 hsx2 htx2
  · exact convex_lb hbe.1 hbe.2 hsy1 hty1
  · exact convex_ub hbe.1 hbe.2 hsy2 hty2

/-- C10, witness: the animation of the teammate from (150, 1050) to the
clamped solver target (90, 1005) over 400 ms, sampled at elapsed 200 ms. -/
theorem animated_teammate_stays_in_half_witness :
    (0:ℚ) < 400 ∧ (0:ℚ) ≤ 200 ∧
    (15:ℚ) ≤ 150 ∧ (150:ℚ) ≤ 595 ∧ (685:ℚ) ≤ 1050 ∧ (1050:ℚ) ≤ 1325 ∧
    (15:ℚ) ≤ 90 ∧ (90:ℚ) ≤ 595 ∧ (685:ℚ) ≤ 1005 ∧ (1005:ℚ) ≤ 1325 ∧
    ((0 ≤ easeProgress (animProgress 400 200) ∧ easeProgress (animProgress 400 200) ≤ 1) ∧
     15 ≤ (animPoint 150 1050 90 1005 400 200).1 ∧
     (animPoint 150 1050 90 1005 400 200).1 ≤ 595 ∧
     685 ≤ (animPoint 150 1050 90 1005 400 200).2 ∧
     (animPoint 150 1050 90 1005 400 200).2 ≤ 1325) :=
  ⟨by norm_num, by norm_num, by norm_num, by norm_num, by norm_num, by norm_num,
    by norm_num, by norm_num, by norm_num, by norm_num,
    animated_teammate_stays_in_half 150 1050 90 1005 400 200
      (by norm_num) (by norm_num) (by norm_num) (by norm_num) (by norm_num)
      (by norm_num) (by norm_num) (by norm_num) (by norm_num) (by norm_num)⟩

end Badminton
